import Mathlib

set_option maxRecDepth 8192

/-!
Verification development for the GenNetta repository.

This file gives a shallow embedding, in Lean 4, of the parts of the
repository that the specification talks about:

* the front-end code generator (`src/components/CodeGenerator.tsx`,
  the later revision in the file): string templates for the generated
  .NET artifacts and the assembly of the project-file mapping in
  `handleDownloadProject`;
* the connection-string parser and password-masking logic of the
  serverless schema function (`supabase/functions/analyze-sqlserver-schema/index.ts`);
* the Node/Express schema-analysis endpoint (`nodejs-api/src/index.ts`),
  with the SQL metadata queries modelled relationally over an
  INFORMATION_SCHEMA-style database state;
* the table-selection state of `SchemaExplorer.tsx` feeding the generator.

JavaScript strings are modelled as Lean `String`, JS objects used as
string-keyed maps as association lists with JS insertion/overwrite
semantics (`objInsert`), and the one use of `Math.random()` as an
explicit `rand : String` argument.  Every brace that occurs in a
generated text is written with the `\x7b` / `\x7d` escapes.
-/

/-- Number of (possibly overlapping) occurrences of the pattern `pat`
at positions of `l` (a character-list view of a string). -/
def countSub (pat : List Char) : List Char → Nat
  | [] => 0
  | c :: rest => (if pat.isPrefixOf (c :: rest) then 1 else 0) + countSub pat rest

/-- Whether `pat` occurs as a contiguous block inside `l`. -/
def containsSub (pat : List Char) : List Char → Bool
  | [] => pat.isEmpty
  | c :: rest => pat.isPrefixOf (c :: rest) || containsSub pat rest

/-! ## Code generator templates (CodeGenerator.tsx, later revision) -/

def generateEntityModel (tableName : String) : String :=
  String.intercalate tableName
  ["// Generated Entity Model for ",
   " table\nusing System.ComponentModel.DataAnnotations;\nusing Microsoft.EntityFrameworkCore;\n\nnamespace GenNettaApp.Models\n\x7b\n    public class ",
   "\n    \x7b\n        [Key]\n        public int Id \x7b get; set; \x7d\n        \n        [Required]\n        [MaxLength(100)]\n        public string Name \x7b get; set; \x7d = string.Empty;\n        \n        public DateTime CreatedAt \x7b get; set; \x7d = DateTime.UtcNow;\n        public DateTime? UpdatedAt \x7b get; set; \x7d\n        \n        // Add additional properties based on your database schema\n    \x7d\n\x7d"]

def generateRepository (tableName : String) : String :=
  String.intercalate tableName
  ["using GenNettaApp.Models;\nusing Microsoft.EntityFrameworkCore;\n\nnamespace GenNettaApp.Repositories\n\x7b\n    public interface I",
   "Repository\n    \x7b\n        Task<IEnumerable<",
   ">> GetAllAsync();\n        Task<",
   "?> GetByIdAsync(int id);\n        Task<",
   "> CreateAsync(",
   " entity);\n        Task<",
   "> UpdateAsync(",
   " entity);\n        Task DeleteAsync(int id);\n    \x7d\n    \n    public class ",
   "Repository : I",
   "Repository\n    \x7b\n        private readonly ApplicationDbContext _context;\n        \n        public ",
   "Repository(ApplicationDbContext context)\n        \x7b\n            _context = context;\n        \x7d\n        \n        public async Task<IEnumerable<",
   ">> GetAllAsync()\n        \x7b\n            return await _context.",
   "s.ToListAsync();\n        \x7d\n        \n        public async Task<",
   "?> GetByIdAsync(int id)\n        \x7b\n            return await _context.",
   "s.FindAsync(id);\n        \x7d\n        \n        public async Task<",
   "> CreateAsync(",
   " entity)\n        \x7b\n            _context.",
   "s.Add(entity);\n            await _context.SaveChangesAsync();\n            return entity;\n        \x7d\n        \n        public async Task<",
   "> UpdateAsync(",
   " entity)\n        \x7b\n            entity.UpdatedAt = DateTime.UtcNow;\n            _context.Entry(entity).State = EntityState.Modified;\n            await _context.SaveChangesAsync();\n            return entity;\n        \x7d\n        \n        public async Task DeleteAsync(int id)\n        \x7b\n            var entity = await _context.",
   "s.FindAsync(id);\n            if (entity != null)\n            \x7b\n                _context.",
   "s.Remove(entity);\n                await _context.SaveChangesAsync();\n            \x7d\n        \x7d\n    \x7d\n\x7d"]

def generateController (tableName : String) : String :=
  String.intercalate tableName
  ["using Microsoft.AspNetCore.Mvc;\nusing Microsoft.AspNetCore.Authorization;\nusing GenNettaApp.Models;\nusing GenNettaApp.Repositories;\n\nnamespace GenNettaApp.Controllers\n\x7b\n    [ApiController]\n    [Route(\"api/[controller]\")]\n    [Authorize]\n    public class ",
   "sController : ControllerBase\n    \x7b\n        private readonly I",
   "Repository _repository;\n        \n        public ",
   "sController(I",
   "Repository repository)\n        \x7b\n            _repository = repository;\n        \x7d\n        \n        [HttpGet]\n        public async Task<ActionResult<IEnumerable<",
   ">>> Get",
   "s()\n        \x7b\n            try\n            \x7b\n                var entities = await _repository.GetAllAsync();\n                return Ok(entities);\n            \x7d\n            catch (Exception ex)\n            \x7b\n                return StatusCode(500, $\"Internal server error: \x7bex.Message\x7d\");\n            \x7d\n        \x7d\n        \n        [HttpGet(\"\x7bid\x7d\")]\n        public async Task<ActionResult<",
   ">> Get",
   "(int id)\n        \x7b\n            try\n            \x7b\n                var entity = await _repository.GetByIdAsync(id);\n                if (entity == null)\n                    return NotFound($\"",
   " with ID \x7bid\x7d not found\");\n                return Ok(entity);\n            \x7d\n            catch (Exception ex)\n            \x7b\n                return StatusCode(500, $\"Internal server error: \x7bex.Message\x7d\");\n            \x7d\n        \x7d\n        \n        [HttpPost]\n        public async Task<ActionResult<",
   ">> Create",
   "(",
   " entity)\n        \x7b\n            try\n            \x7b\n                if (!ModelState.IsValid)\n                    return BadRequest(ModelState);\n                    \n                var created = await _repository.CreateAsync(entity);\n                return CreatedAtAction(nameof(Get",
   "), new \x7b id = created.Id \x7d, created);\n            \x7d\n            catch (Exception ex)\n            \x7b\n                return StatusCode(500, $\"Internal server error: \x7bex.Message\x7d\");\n            \x7d\n        \x7d\n        \n        [HttpPut(\"\x7bid\x7d\")]\n        public async Task<IActionResult> Update",
   "(int id, ",
   " entity)\n        \x7b\n            try\n            \x7b\n                if (id != entity.Id)\n                    return BadRequest(\"ID mismatch\");\n                    \n                if (!ModelState.IsValid)\n                    return BadRequest(ModelState);\n                \n                await _repository.UpdateAsync(entity);\n                return NoContent();\n            \x7d\n            catch (Exception ex)\n            \x7b\n                return StatusCode(500, $\"Internal server error: \x7bex.Message\x7d\");\n            \x7d\n        \x7d\n        \n        [HttpDelete(\"\x7bid\x7d\")]\n        public async Task<IActionResult> Delete",
   "(int id)\n        \x7b\n            try\n            \x7b\n                await _repository.DeleteAsync(id);\n                return NoContent();\n            \x7d\n            catch (Exception ex)\n            \x7b\n                return StatusCode(500, $\"Internal server error: \x7bex.Message\x7d\");\n            \x7d\n        \x7d\n    \x7d\n\x7d"]

def generateMicroservice (tableName : String) : String :=
  String.intercalate tableName
  ["using GenNettaApp.Models;\nusing GenNettaApp.Repositories;\nusing Microsoft.AspNetCore.Authorization;\n\nnamespace GenNettaApp.Services\n\x7b\n    public interface I",
   "Service\n    \x7b\n        Task<IEnumerable<",
   ">> GetAllAsync();\n        Task<",
   "?> GetByIdAsync(int id);\n        Task<",
   "> CreateAsync(",
   " entity);\n        Task<",
   "> UpdateAsync(",
   " entity);\n        Task DeleteAsync(int id);\n    \x7d\n    \n    [Authorize]\n    public class ",
   "Service : I",
   "Service\n    \x7b\n        private readonly I",
   "Repository _repository;\n        private readonly ILogger<",
   "Service> _logger;\n        \n        public ",
   "Service(I",
   "Repository repository, ILogger<",
   "Service> logger)\n        \x7b\n            _repository = repository;\n            _logger = logger;\n        \x7d\n        \n        public async Task<IEnumerable<",
   ">> GetAllAsync()\n        \x7b\n            _logger.LogInformation(\"Getting all ",
   "s\");\n            return await _repository.GetAllAsync();\n        \x7d\n        \n        public async Task<",
   "?> GetByIdAsync(int id)\n        \x7b\n            _logger.LogInformation(\"Getting ",
   " with ID: \x7bId\x7d\", id);\n            return await _repository.GetByIdAsync(id);\n        \x7d\n        \n        public async Task<",
   "> CreateAsync(",
   " entity)\n        \x7b\n            _logger.LogInformation(\"Creating new ",
   "\");\n            return await _repository.CreateAsync(entity);\n        \x7d\n        \n        public async Task<",
   "> UpdateAsync(",
   " entity)\n        \x7b\n            _logger.LogInformation(\"Updating ",
   " with ID: \x7bId\x7d\", entity.Id);\n            return await _repository.UpdateAsync(entity);\n        \x7d\n        \n        public async Task DeleteAsync(int id)\n        \x7b\n            _logger.LogInformation(\"Deleting ",
   " with ID: \x7bId\x7d\", id);\n            await _repository.DeleteAsync(id);\n        \x7d\n    \x7d\n\x7d"]

def dbSetDecl (table : String) : String :=
  String.intercalate table
  ["        public DbSet<",
   "> ",
   "s \x7b get; set; \x7d"]

def dbConfigEntity (table : String) : String :=
  String.intercalate table
  ["            modelBuilder.Entity<",
   ">(entity =>\n            \x7b\n                entity.Property(e => e.CreatedAt).HasDefaultValueSql(\"GETUTCDATE()\");\n            \x7d);"]

def repoRegistration (table : String) : String :=
  String.intercalate table
  ["builder.Services.AddScoped<I",
   "Repository, ",
   "Repository>();"]

/-- `const dbSets = selectedTables.map(table => ...).join('\n')` -/
def dbSets (tables : List String) : String :=
  String.intercalate "\n" (tables.map dbSetDecl)

/-- `const dbConfigEntities = selectedTables.map(table => ...).join('\n')` -/
def dbConfigEntities (tables : List String) : String :=
  String.intercalate "\n" (tables.map dbConfigEntity)

/-- `const repositoryRegistrations = selectedTables.map(table => ...).join('\n')` -/
def repositoryRegistrations (tables : List String) : String :=
  String.intercalate "\n" (tables.map repoRegistration)

def slnFile (rand : String) : String :=
  "Microsoft Visual Studio Solution File, Format Version 12.00\n# Visual Studio Version 17\nVisualStudioVersion = 17.0.31903.59\nMinimumVisualStudioVersion = 10.0.40219.1\nProject(\"\x7b9A19103F-16F7-4668-BE54-9A1E7A4F7556\x7d\") = \"GenNettaApp\", \"GenNettaApp\\GenNettaApp.csproj\", \"\x7b" ++ rand ++ "\x7d\"\nEndProject\nGlobal\n\tGlobalSection(SolutionConfigurationPlatforms) = preSolution\n\t\tDebug|Any CPU = Debug|Any CPU\n\t\tRelease|Any CPU = Release|Any CPU\n\tEndGlobalSection\nEndGlobal"

def csprojFile : String :=
  "<Project Sdk=\"Microsoft.NET.Sdk.Web\">\n  <PropertyGroup>\n    <TargetFramework>net8.0</TargetFramework>\n    <Nullable>enable</Nullable>\n    <ImplicitUsings>enable</ImplicitUsings>\n  </PropertyGroup>\n  <ItemGroup>\n    <PackageReference Include=\"Microsoft.EntityFrameworkCore.SqlServer\" Version=\"8.0.0\" />\n    <PackageReference Include=\"Microsoft.EntityFrameworkCore.Tools\" Version=\"8.0.0\" />\n    <PackageReference Include=\"Microsoft.AspNetCore.Authentication.JwtBearer\" Version=\"8.0.0\" />\n    <PackageReference Include=\"Microsoft.AspNetCore.Authentication.Google\" Version=\"8.0.0\" />\n    <PackageReference Include=\"Swashbuckle.AspNetCore\" Version=\"6.5.0\" />\n  </ItemGroup>\n</Project>"

def programCs (tables : List String) : String :=
  "using Microsoft.EntityFrameworkCore;\nusing Microsoft.AspNetCore.Authentication.JwtBearer;\nusing Microsoft.IdentityModel.Tokens;\nusing System.Text;\nusing GenNettaApp.Models;\nusing GenNettaApp.Repositories;\nusing GenNettaApp.Services;\n\nvar builder = WebApplication.CreateBuilder(args);\n\n// Add services to the container.\nbuilder.Services.AddDbContext<ApplicationDbContext>(options =>\n    options.UseSqlServer(builder.Configuration.GetConnectionString(\"DefaultConnection\")));\n\n// Register repositories\n" ++ repositoryRegistrations tables ++ "\n\n// Add JWT authentication\nbuilder.Services.AddAuthentication(JwtBearerDefaults.AuthenticationScheme)\n    .AddJwtBearer(options =>\n    \x7b\n        options.TokenValidationParameters = new TokenValidationParameters\n        \x7b\n            ValidateIssuer = true,\n            ValidateAudience = true,\n            ValidateLifetime = true,\n            ValidateIssuerSigningKey = true,\n            ValidIssuer = builder.Configuration[\"Jwt:Issuer\"],\n            ValidAudience = builder.Configuration[\"Jwt:Audience\"],\n            IssuerSigningKey = new SymmetricSecurityKey(Encoding.UTF8.GetBytes(builder.Configuration[\"Jwt:Key\"]))\n        \x7d;\n    \x7d);\n\nbuilder.Services.AddControllers();\nbuilder.Services.AddEndpointsApiExplorer();\nbuilder.Services.AddSwaggerGen();\n\nvar app = builder.Build();\n\n// Configure the HTTP request pipeline.\nif (app.Environment.IsDevelopment())\n\x7b\n    app.UseSwagger();\n    app.UseSwaggerUI();\n\x7d\n\napp.UseHttpsRedirection();\napp.UseAuthentication();\napp.UseAuthorization();\napp.MapControllers();\n\napp.Run();"

def dbContextFile (tables : List String) : String :=
  "using Microsoft.EntityFrameworkCore;\n\nnamespace GenNettaApp.Models\n\x7b\n    public class ApplicationDbContext : DbContext\n    \x7b\n        public ApplicationDbContext(DbContextOptions<ApplicationDbContext> options) : base(options) \x7b \x7d\n        \n" ++ dbSets tables ++ "\n        \n        protected override void OnModelCreating(ModelBuilder modelBuilder)\n        \x7b\n            base.OnModelCreating(modelBuilder);\n            \n" ++ dbConfigEntities tables ++ "\n        \x7d\n    \x7d\n\x7d"

def appsettingsFile : String :=
  "\x7b\n  \"ConnectionStrings\": \x7b\n    \"DefaultConnection\": \"Server=localhost;Database=GenNettaApp;Trusted_Connection=true;TrustServerCertificate=true;\"\n  \x7d,\n  \"Jwt\": \x7b\n    \"Key\": \"your-secret-key-here-make-it-at-least-32-characters-long\",\n    \"Issuer\": \"GenNettaApp\",\n    \"Audience\": \"GenNettaApp\"\n  \x7d,\n  \"Authentication\": \x7b\n    \"Google\": \x7b\n      \"ClientId\": \"your-google-client-id\",\n      \"ClientSecret\": \"your-google-client-secret\"\n    \x7d\n  \x7d,\n  \"Logging\": \x7b\n    \"LogLevel\": \x7b\n      \"Default\": \"Information\",\n      \"Microsoft.AspNetCore\": \"Warning\"\n    \x7d\n  \x7d,\n  \"AllowedHosts\": \"*\"\n\x7d"

def readmeApiSection (table : String) : String :=
  String.intercalate table
  ["\n### ",
   "\n- GET /api/",
   "s - Get all ",
   "s\n- GET /api/",
   "s/\x7bid\x7d - Get ",
   " by ID\n- POST /api/",
   "s - Create new ",
   "\n- PUT /api/",
   "s/\x7bid\x7d - Update ",
   "\n- DELETE /api/",
   "s/\x7bid\x7d - Delete ",
   "\n"]

def readmeFile (tables : List String) : String :=
  "# GenNetta Generated .NET Core Application\n\nThis project was generated by GenNetta, a .NET Core code generator.\n\n## Features\n- Entity Framework Core with Repository Pattern\n- MVC Architecture\n- JWT Authentication\n- Google OAuth Integration\n- RESTful API endpoints\n- SQL Server support\n- Complete CRUD operations for all tables\n- Microservices architecture\n- Error handling and logging\n\n## Generated Tables\n" ++ String.intercalate "\n" (tables.map (fun table => "- " ++ table)) ++ "\n\n## Setup\n1. Update the connection string in appsettings.json\n2. Configure Google OAuth credentials\n3. Run database migrations: `dotnet ef database update`\n4. Run the application: `dotnet run`\n\n## API Endpoints\n" ++ String.join (tables.map readmeApiSection) ++ "\n\n## Architecture\n- **Models**: Entity Framework models for each table\n- **Repositories**: Repository pattern for data access\n- **Controllers**: RESTful API controllers\n- **Services**: Business logic microservices\n- **Authentication**: JWT + Google OAuth integration\n"

/-! ## Assembly of the project-file mapping (`handleDownloadProject`) -/

/-- Output path of the entity model generated for a table. -/
def modelPath (t : String) : String := "GenNettaApp/Models/" ++ t ++ ".cs"

/-- Output path of the repository file generated for a table. -/
def repoPath (t : String) : String := "GenNettaApp/Repositories/" ++ t ++ "Repository.cs"

/-- Output path of the API controller generated for a table. -/
def ctrlPath (t : String) : String := "GenNettaApp/Controllers/" ++ t ++ "sController.cs"

/-- Output path of the service file generated for a table. -/
def svcPath (t : String) : String := "GenNettaApp/Services/" ++ t ++ "Service.cs"

/-- Path of the database-context file in the base project mapping. -/
def ctxPath : String := "GenNettaApp/Models/ApplicationDbContext.cs"

/-- JS object assignment `obj[k] = v` on a string-keyed object viewed as an
association list in insertion order: an existing key keeps its position and
gets the new value, a new key is appended at the end. -/
def objInsert (files : List (String × String)) (k v : String) : List (String × String) :=
  if files.any (fun p => p.1 == k) then
    files.map (fun p => if p.1 == k then (k, v) else p)
  else files ++ [(k, v)]

/-- The `projectFiles` object literal of `handleDownloadProject`, in key
insertion order.  `rand` stands for the draw of
`Math.random().toString(36).substring(7).toUpperCase()`. -/
def baseProjectFiles (tables : List String) (rand : String) : List (String × String) :=
  [("GenNettaApp.sln", slnFile rand),
   ("GenNettaApp/GenNettaApp.csproj", csprojFile),
   ("GenNettaApp/Program.cs", programCs tables),
   ("GenNettaApp/Models/ApplicationDbContext.cs", dbContextFile tables),
   ("GenNettaApp/appsettings.json", appsettingsFile),
   ("README.md", readmeFile tables)]

/-- Body of `selectedTables.forEach(tableName => ...)`: the four per-table
assignments into `projectFiles`. -/
def perTableAdd (files : List (String × String)) (tableName : String) : List (String × String) :=
  objInsert
    (objInsert
      (objInsert
        (objInsert files (modelPath tableName) (generateEntityModel tableName))
        (repoPath tableName) (generateRepository tableName))
      (ctrlPath tableName) (generateController tableName))
    (svcPath tableName) (generateMicroservice tableName)

/-- The full project-file mapping produced by `handleDownloadProject`
(the part handed to the zip collaborator), as path/content pairs. -/
def handleDownloadProjectFiles (selectedTables : List String) (rand : String) :
    List (String × String) :=
  selectedTables.foldl perTableAdd (baseProjectFiles selectedTables rand)


/-! ## Connection-string parsing
(`parseConnectionString` of `supabase/functions/analyze-sqlserver-schema/index.ts`,
identical in both revisions present) -/

/-- JS `String.prototype.split` with a one-character separator, on the
character-list view of a string (`"".split(sep) = [""]`, adjacent separators
yield empty segments). -/
def splitOnChar (sep : Char) : List Char → List (List Char)
  | [] => [[]]
  | c :: rest =>
    if c == sep then [] :: splitOnChar sep rest
    else
      match splitOnChar sep rest with
      | [] => [[c]]
      | s :: ss => (c :: s) :: ss

/-- String version of `splitOnChar`. -/
def strSplit (sep : Char) (s : String) : List String :=
  (splitOnChar sep s.data).map (fun l => ⟨l⟩)

/-- Whitespace trimming at both ends (JS `String.prototype.trim`). -/
def strTrim (s : String) : String :=
  ⟨((s.data.dropWhile Char.isWhitespace).reverse.dropWhile Char.isWhitespace).reverse⟩

/-- ASCII lower-casing (JS `String.prototype.toLowerCase` on the
ASCII keys/values this code compares). -/
def strToLower (s : String) : String :=
  ⟨s.data.map Char.toLower⟩

/-- The `ConnectionConfig` interface; absent optional fields are `none`. -/
structure ConnectionConfig where
  server : String
  database : String
  username : Option String
  password : Option String
  trustedConnection : Option Bool
  port : Nat
deriving DecidableEq, Repr

/-- The object literal `{ server: '', database: '', port: 1433 }`. -/
def initialConfig : ConnectionConfig :=
  { server := "", database := "", username := none, password := none,
    trustedConnection := none, port := 1433 }

/-- The `switch (key.toLowerCase())` of the parser body. -/
def applyConfigKey (config : ConnectionConfig) (k v : String) : ConnectionConfig :=
  let key := strToLower k
  if key = "server" ∨ key = "data source" then { config with server := v }
  else if key = "database" ∨ key = "initial catalog" then { config with database := v }
  else if key = "user id" ∨ key = "uid" then { config with username := some v }
  else if key = "password" ∨ key = "pwd" then { config with password := some v }
  else if key = "trusted_connection" ∨ key = "integrated security" then
    { config with trustedConnection := some (strToLower v == "true" || strToLower v == "yes") }
  else config

/-- One loop iteration: `const [key, value] = pair.split('=').map(s => s.trim());
if (!key || !value) continue; switch ...`. -/
def applySegment (config : ConnectionConfig) (pair : String) : ConnectionConfig :=
  let parts := (strSplit '=' pair).map strTrim
  match parts[0]?, parts[1]? with
  | some k, some v => if k = "" ∨ v = "" then config else applyConfigKey config k v
  | _, _ => config

/-- `parseConnectionString`: split on `;`, drop whitespace-only segments,
fold the segments over the initial config. -/
def parseConnectionString (connectionString : String) : ConnectionConfig :=
  ((strSplit ';' connectionString).filter (fun pair => strTrim pair ≠ "")).foldl
    applySegment initialConfig

/-! ## Password masking
(`connectionString.replace(/Password=[^;]+/i, 'Password=***')`) -/

/-- Case-insensitive match of the (lowercase) pattern at the head of the text. -/
def matchLowerAt : List Char → List Char → Bool
  | [], _ => true
  | _ :: _, [] => false
  | p :: ps, c :: cs => p == c.toLower && matchLowerAt ps cs

/-- Leftmost-match scan for `/Password=[^;]+/i`, replacing the match with
`Password=***` (the regex has no global flag: only the first match is replaced). -/
def maskScan : List Char → List Char
  | [] => []
  | c :: rest =>
    if matchLowerAt "password=".data (c :: rest)
        && (match (c :: rest).drop 9 with
            | [] => false
            | d :: _ => d != ';') then
      "Password=***".data ++ ((c :: rest).drop 9).dropWhile (fun d => d ≠ ';')
    else c :: maskScan rest

/-- The masked echo of the connection string in the success response. -/
def maskPassword (connectionString : String) : String :=
  ⟨maskScan connectionString.data⟩

/-! ## The serverless `serve` handler (`src/unnamed/part_000`) -/

/-- The `Column` interface of the edge function (`primaryKey?` is optional). -/
structure SPColumn where
  name : String
  type : String
  nullable : Bool
  primaryKey : Option Bool
deriving DecidableEq, Repr

/-- The `Table` interface of the edge function. -/
structure SPTable where
  name : String
  columns : List SPColumn
deriving DecidableEq, Repr

/-- JSON payload (plus HTTP status) of a response of the edge function. -/
structure EdgeResponse where
  status : Nat
  success : Bool
  tables : Option (List SPTable)
  connectionString : Option String
  message : Option String
  error : Option String
deriving DecidableEq, Repr

/-- The `serve` handler.  `body` is the outcome of `await req.json()` followed
by the destructuring of `connectionString` (`.error` = a thrown parse error,
caught by the outer `catch`); `db` is the outcome of `analyzeDatabase`
(`.error` = the message of the error caught by the inner `catch`). -/
def serveHandler (body : Except String (Option String))
    (db : Except String (List SPTable)) : EdgeResponse :=
  match body with
  | .error e =>
    { status := 500, success := false, tables := none, connectionString := none,
      message := none, error := some e }
  | .ok connectionString =>
    match connectionString with
    | none =>
      { status := 400, success := false, tables := none, connectionString := none,
        message := none, error := some "Connection string is required" }
    | some cs =>
      if cs = "" then
        { status := 400, success := false, tables := none, connectionString := none,
          message := none, error := some "Connection string is required" }
      else
        match db with
        | .ok schema =>
          { status := 200, success := true, tables := some schema,
            connectionString := some (maskPassword cs),
            message := some ("Successfully analyzed " ++ toString schema.length ++
              " tables from " ++ (parseConnectionString cs).database),
            error := none }
        | .error dbError =>
          { status := 500, success := false, tables := none, connectionString := none,
            message := none,
            error := some ("Failed to connect to SQL Server: " ++ dbError) }


/-! ## The Node/Express analyze-schema endpoint (`nodejs-api/src/index.ts`) -/

/-- The `Column` interface of the Node endpoint. -/
structure NodeColumn where
  name : String
  type : String
  nullable : Bool
  primaryKey : Bool
deriving DecidableEq, Repr

/-- The `Table` interface of the Node endpoint. -/
structure NodeTable where
  name : String
  columns : List NodeColumn
deriving DecidableEq, Repr

/-- JSON payload (plus HTTP status) of a response of the Node endpoint. -/
structure NodeResponse where
  status : Nat
  success : Bool
  tables : Option (List NodeTable)
  error : Option String
deriving DecidableEq, Repr

/-- The `POST /api/analyze-schema` handler.  `body` is the outcome of reading
`connectionString` from the request body (`.error` = an error caught by the
outer `catch`), `db` the outcome of the connect-and-query block (`.error` =
the message of the error caught by the inner `catch`). -/
def nodeAnalyzeHandler (body : Except String (Option String))
    (db : Except String (List NodeTable)) : NodeResponse :=
  match body with
  | .error e => { status := 500, success := false, tables := none, error := some e }
  | .ok connectionString =>
    match connectionString with
    | none =>
      { status := 400, success := false, tables := none,
        error := some "Connection string is required" }
    | some cs =>
      if cs = "" then
        { status := 400, success := false, tables := none,
          error := some "Connection string is required" }
      else
        match db with
        | .ok tables => { status := 200, success := true, tables := some tables, error := none }
        | .error e => { status := 500, success := false, tables := none, error := some e }

/-! ## Relational model of the INFORMATION_SCHEMA queries

The Node endpoint (and the equivalent ASP.NET controller) runs one query over
`INFORMATION_SCHEMA.TABLES` and then, per table, one query joining
`INFORMATION_SCHEMA.COLUMNS` against the primary-key constraint metadata.
The four metadata views are modelled as row lists and the two SQL statements
as functions over them. -/

/-- A row of `INFORMATION_SCHEMA.TABLES`. -/
structure TablesRow where
  tableName : String
  tableType : String
  tableSchema : String
deriving DecidableEq, Repr

/-- A row of `INFORMATION_SCHEMA.COLUMNS`. -/
structure ColumnsRow where
  tableName : String
  columnName : String
  dataType : String
  isNullable : String
  ordinalPosition : Nat
deriving DecidableEq, Repr

/-- A row of `INFORMATION_SCHEMA.TABLE_CONSTRAINTS`. -/
structure TableConstraintsRow where
  constraintName : String
  constraintType : String
deriving DecidableEq, Repr

/-- A row of `INFORMATION_SCHEMA.KEY_COLUMN_USAGE`. -/
structure KeyColumnUsageRow where
  constraintName : String
  tableName : String
  columnName : String
deriving DecidableEq, Repr

/-- The metadata state of the connected database. -/
structure InfoSchemaDb where
  tables : List TablesRow
  columns : List ColumnsRow
  tableConstraints : List TableConstraintsRow
  keyColumnUsage : List KeyColumnUsageRow
deriving DecidableEq, Repr

/-- The SQL statements the endpoint can issue. -/
inductive SqlQuery
  | tablesQ : SqlQuery
  | columnsQ (tableName : String) : SqlQuery
deriving DecidableEq, Repr

/-- Evaluation of the tables query: base tables of the fixed schema `dbo`,
ordered by name (`ORDER BY TABLE_NAME`). -/
def baseTableNames (db : InfoSchemaDb) : List String :=
  List.insertionSort (· ≤ ·)
    ((db.tables.filter
        (fun r => r.tableType == "BASE TABLE" && r.tableSchema == "dbo")).map
      TablesRow.tableName)

/-- Evaluation of the primary-key subquery: `(TABLE_NAME, COLUMN_NAME)` pairs
of key-column-usage rows joined to a constraint of type `PRIMARY KEY`. -/
def pkColumns (db : InfoSchemaDb) : List (String × String) :=
  db.tableConstraints.flatMap (fun tc =>
    if tc.constraintType == "PRIMARY KEY" then
      (db.keyColumnUsage.filter (fun ku => ku.constraintName == tc.constraintName)).map
        (fun ku => (ku.tableName, ku.columnName))
    else [])

/-- A row of the per-table column query result. -/
structure ColumnsQueryRow where
  columnName : String
  dataType : String
  isNullable : String
  isPrimaryKey : Nat
deriving DecidableEq, Repr

/-- `ORDER BY c.ORDINAL_POSITION` comparison. -/
def colOrd (a b : ColumnsRow) : Prop := a.ordinalPosition ≤ b.ordinalPosition

instance : DecidableRel colOrd := fun a b => Nat.decLe a.ordinalPosition b.ordinalPosition

instance : IsTotal ColumnsRow colOrd := ⟨fun a b => Nat.le_total a.ordinalPosition b.ordinalPosition⟩

instance : IsTrans ColumnsRow colOrd := ⟨fun _ _ _ => Nat.le_trans⟩

/-- The `INFORMATION_SCHEMA.COLUMNS` rows of one table, ordered by ordinal
position. -/
def sortedColumnsRows (db : InfoSchemaDb) (tableName : String) : List ColumnsRow :=
  List.insertionSort colOrd (db.columns.filter (fun c => c.tableName == tableName))

/-- Evaluation of the per-table column query: the `LEFT JOIN` against the
primary-key pairs becomes `CASE WHEN pk.COLUMN_NAME IS NOT NULL THEN 1 ELSE 0
END`. -/
def columnsQueryRows (db : InfoSchemaDb) (tableName : String) : List ColumnsQueryRow :=
  (sortedColumnsRows db tableName).map (fun c =>
    { columnName := c.columnName, dataType := c.dataType, isNullable := c.isNullable,
      isPrimaryKey :=
        if (pkColumns db).any (fun pk => pk.1 == c.tableName && pk.2 == c.columnName)
        then 1 else 0 })

/-- `columnsResult.recordset.map(col => ...)` of the endpoint. -/
def rowToNodeColumn (r : ColumnsQueryRow) : NodeColumn :=
  { name := r.columnName, type := r.dataType,
    nullable := r.isNullable == "YES", primaryKey := r.isPrimaryKey == 1 }

/-- The sequence of SQL statements the endpoint issues against `db`. -/
def analyzeSchemaQueries (db : InfoSchemaDb) : List SqlQuery :=
  SqlQuery.tablesQ :: (baseTableNames db).map SqlQuery.columnsQ

/-- The table list the endpoint returns for `db`. -/
def analyzeSchemaTables (db : InfoSchemaDb) : List NodeTable :=
  (baseTableNames db).map (fun tn =>
    { name := tn, columns := (columnsQueryRows db tn).map rowToNodeColumn })

/-! ## Table selection (`SchemaExplorer.tsx`) and the front-end pipeline -/

/-- `ColumnDefinition` of the schema snapshot (spec data model, read from the
Schema Provider). -/
structure ColumnDef where
  name : String
  sourceType : String
  nullable : Bool
  primaryKey : Bool
deriving DecidableEq, Repr

/-- `TableDefinition` of the schema snapshot. -/
structure TableDef where
  name : String
  columns : List ColumnDef
deriving DecidableEq, Repr

/-- The user interactions that change the selection in `SchemaExplorer`. -/
inductive SelAction
  | toggle (tableName : String)
  | selectAll
  | deselectAll
deriving DecidableEq, Repr

/-- `toggleTableSelection`. -/
def toggleTableSelection (prev : List String) (tableName : String) : List String :=
  if prev.contains tableName then prev.filter (fun t => t ≠ tableName)
  else prev ++ [tableName]

/-- One selection interaction applied to the current selection. -/
def applySelAction (schema : List TableDef) (sel : List String) : SelAction → List String
  | .toggle n => toggleTableSelection sel n
  | .selectAll => schema.map TableDef.name
  | .deselectAll => []

/-- The selection handed to `onProceedToGeneration` after a sequence of
interactions (the initial selection is all table names). -/
def finalSelection (schema : List TableDef) (acts : List SelAction) : List String :=
  acts.foldl (applySelAction schema) (schema.map TableDef.name)

/-- Snapshot-to-artifacts pipeline: the schema snapshot feeds the selection UI,
and the selected names feed `handleDownloadProject`. -/
def pipelineGenerate (schema : List TableDef) (acts : List SelAction) (rand : String) :
    List (String × String) :=
  handleDownloadProjectFiles (finalSelection schema acts) rand

/-- The tail of `baseProjectFiles` (every base entry except the solution
file, which is the only one that mentions the random draw). -/
def baseTailFiles (tables : List String) : List (String × String) :=
  [("GenNettaApp/GenNettaApp.csproj", csprojFile),
   ("GenNettaApp/Program.cs", programCs tables),
   ("GenNettaApp/Models/ApplicationDbContext.cs", dbContextFile tables),
   ("GenNettaApp/appsettings.json", appsettingsFile),
   ("README.md", readmeFile tables)]

/-- Example snapshot: one table `Users` with a single integer key column. -/
def snapUsersA : List TableDef :=
  [⟨"Users", [⟨"Id", "int", false, true⟩]⟩]

/-- Example snapshot: the same table name with a completely different column list. -/
def snapUsersB : List TableDef :=
  [⟨"Users", [⟨"Id", "bigint", true, false⟩, ⟨"Email", "nvarchar", false, false⟩]⟩]

/-- Example metadata state: one base table `Users` with two columns, the
first being its primary key. -/
def exInfoDb : InfoSchemaDb :=
  { tables := [⟨"Users", "BASE TABLE", "dbo"⟩],
    columns := [⟨"Users", "Id", "int", "NO", 1⟩, ⟨"Users", "Email", "nvarchar", "YES", 2⟩],
    tableConstraints := [⟨"PK_Users", "PRIMARY KEY"⟩],
    keyColumnUsage := [⟨"PK_Users", "Users", "Id"⟩] }

/-- The table the endpoint returns for `exInfoDb`. -/
def exUsersTable : NodeTable :=
  ⟨"Users", [⟨"Id", "int", false, true⟩, ⟨"Email", "nvarchar", true, false⟩]⟩

/-! ## Helper lemmas -/

theorem ne_of_data_take (s₁ s₂ : String) (n : Nat)
    (h : s₁.data.take n ≠ s₂.data.take n) : s₁ ≠ s₂ :=
  fun e => h (by rw [e])

theorem wrap_data_take (a b t : String) (n : Nat) (h : n ≤ a.data.length) :
    (a ++ t ++ b).data.take n = a.data.take n := by
  rw [String.data_append, String.data_append, List.append_assoc,
    List.take_append_of_le_length h]

theorem wrapped_ne (a b t s : String) (n : Nat) (hn : n ≤ a.data.length)
    (h : a.data.take n ≠ s.data.take n) : a ++ t ++ b ≠ s := by
  apply ne_of_data_take _ _ n
  rw [wrap_data_take a b t n hn]
  exact h

theorem modelPath_ne_sln (t : String) : modelPath t ≠ "GenNettaApp.sln" := by
  show "GenNettaApp/Models/" ++ t ++ ".cs" ≠ "GenNettaApp.sln"
  exact wrapped_ne _ _ _ _ 12 (by decide) (by decide)

theorem repoPath_ne_sln (t : String) : repoPath t ≠ "GenNettaApp.sln" := by
  show "GenNettaApp/Repositories/" ++ t ++ "Repository.cs" ≠ "GenNettaApp.sln"
  exact wrapped_ne _ _ _ _ 12 (by decide) (by decide)

theorem ctrlPath_ne_sln (t : String) : ctrlPath t ≠ "GenNettaApp.sln" := by
  show "GenNettaApp/Controllers/" ++ t ++ "sController.cs" ≠ "GenNettaApp.sln"
  exact wrapped_ne _ _ _ _ 12 (by decide) (by decide)

theorem svcPath_ne_sln (t : String) : svcPath t ≠ "GenNettaApp.sln" := by
  show "GenNettaApp/Services/" ++ t ++ "Service.cs" ≠ "GenNettaApp.sln"
  exact wrapped_ne _ _ _ _ 12 (by decide) (by decide)

theorem repoPath_ne_ctxPath (t : String) : repoPath t ≠ ctxPath := by
  show "GenNettaApp/Repositories/" ++ t ++ "Repository.cs" ≠ ctxPath
  exact wrapped_ne _ _ _ _ 13 (by decide) (by decide)

theorem ctrlPath_ne_ctxPath (t : String) : ctrlPath t ≠ ctxPath := by
  show "GenNettaApp/Controllers/" ++ t ++ "sController.cs" ≠ ctxPath
  exact wrapped_ne _ _ _ _ 13 (by decide) (by decide)

theorem svcPath_ne_ctxPath (t : String) : svcPath t ≠ ctxPath := by
  show "GenNettaApp/Services/" ++ t ++ "Service.cs" ≠ ctxPath
  exact wrapped_ne _ _ _ _ 13 (by decide) (by decide)

theorem modelPath_ne_ctxPath (t : String) (h : t ≠ "ApplicationDbContext") :
    modelPath t ≠ ctxPath := by
  intro e
  apply h
  have hc : ctxPath = "GenNettaApp/Models/" ++ "ApplicationDbContext" ++ ".cs" := by decide
  have e' : ("GenNettaApp/Models/" ++ t ++ ".cs").data =
      ("GenNettaApp/Models/" ++ "ApplicationDbContext" ++ ".cs").data := by
    rw [← hc]
    exact congrArg String.data e
  rw [String.data_append, String.data_append, String.data_append, String.data_append,
    List.append_assoc, List.append_assoc] at e'
  have e'' := List.append_cancel_left e'
  have e''' := List.append_cancel_right e''
  exact String.ext e'''

theorem lookup_replaceKey (k v q : String) (h : ¬ q = k) :
    ∀ l : List (String × String),
      List.lookup q (l.map (fun p => if p.1 == k then (k, v) else p)) = List.lookup q l
  | [] => rfl
  | (pk, pv) :: l => by
    rw [List.map_cons]
    by_cases hp : pk = k
    · have hf : (if ((pk, pv)).1 == k then (k, v) else (pk, pv)) = (k, v) := by
        simp [hp]
      rw [hf, List.lookup_cons, List.lookup_cons]
      have hqk : (q == k) = false := by simp [h]
      have hqpk : (q == pk) = false := by simp [hp, h]
      rw [hqk, hqpk]
      exact lookup_replaceKey k v q h l
    · have hf : (if ((pk, pv)).1 == k then (k, v) else (pk, pv)) = (pk, pv) := by
        simp [hp]
      rw [hf, List.lookup_cons, List.lookup_cons]
      cases hq : (q == pk) with
      | true => rfl
      | false => exact lookup_replaceKey k v q h l

theorem lookup_append_one (q k v : String) (h : ¬ q = k) :
    ∀ l : List (String × String), List.lookup q (l ++ [(k, v)]) = List.lookup q l
  | [] => by
    have hqk : (q == k) = false := by simp [h]
    rw [List.nil_append, List.lookup_cons, hqk]
  | (pk, pv) :: l => by
    rw [List.cons_append, List.lookup_cons, List.lookup_cons]
    cases hq : (q == pk) with
    | true => rfl
    | false => exact lookup_append_one q k v h l

theorem lookup_objInsert_ne (l : List (String × String)) (k v q : String) (h : ¬ q = k) :
    List.lookup q (objInsert l k v) = List.lookup q l := by
  unfold objInsert
  split
  · exact lookup_replaceKey k v q h l
  · exact lookup_append_one q k v h l

theorem countP_replaceKey (k v q : String) :
    ∀ l : List (String × String),
      List.countP (fun p => p.1 == q) (l.map (fun p => if p.1 == k then (k, v) else p)) =
        List.countP (fun p => p.1 == q) l
  | [] => rfl
  | (pk, pv) :: l => by
    rw [List.map_cons]
    by_cases hp : pk = k
    · have hf : (if ((pk, pv)).1 == k then (k, v) else (pk, pv)) = (k, v) := by
        simp [hp]
      rw [hf, List.countP_cons, List.countP_cons, countP_replaceKey k v q l, hp]
    · have hf : (if ((pk, pv)).1 == k then (k, v) else (pk, pv)) = (pk, pv) := by
        simp [hp]
      rw [hf, List.countP_cons, List.countP_cons, countP_replaceKey k v q l]

theorem countP_objInsert_ne (l : List (String × String)) (k v q : String) (h : ¬ k = q) :
    List.countP (fun p => p.1 == q) (objInsert l k v) = List.countP (fun p => p.1 == q) l := by
  unfold objInsert
  split
  · exact countP_replaceKey k v q l
  · have hb : (k == q) = false := by simp [h]
    simp [List.countP_append, List.countP_cons, hb]

theorem objInsert_cons (p : String × String) (l : List (String × String)) (k v : String)
    (h : ¬ p.1 = k) : objInsert (p :: l) k v = p :: objInsert l k v := by
  have hb : (p.1 == k) = false := by simp [h]
  unfold objInsert
  rw [List.any_cons, hb, Bool.false_or]
  cases ha : l.any (fun p => p.1 == k) with
  | true => simp [List.map_cons, hb, h]
  | false => simp

theorem perTableAdd_cons_sln (s : String) (l : List (String × String)) (t : String) :
    perTableAdd (("GenNettaApp.sln", s) :: l) t =
      ("GenNettaApp.sln", s) :: perTableAdd l t := by
  unfold perTableAdd
  rw [objInsert_cons _ _ _ _ (Ne.symm (modelPath_ne_sln t)),
    objInsert_cons _ _ _ _ (Ne.symm (repoPath_ne_sln t)),
    objInsert_cons _ _ _ _ (Ne.symm (ctrlPath_ne_sln t)),
    objInsert_cons _ _ _ _ (Ne.symm (svcPath_ne_sln t))]

theorem foldl_perTableAdd_cons_sln (s : String) :
    ∀ (ts : List String) (l : List (String × String)),
      ts.foldl perTableAdd (("GenNettaApp.sln", s) :: l) =
        ("GenNettaApp.sln", s) :: ts.foldl perTableAdd l
  | [], _ => rfl
  | t :: ts, l => by
    rw [List.foldl_cons, List.foldl_cons, perTableAdd_cons_sln,
      foldl_perTableAdd_cons_sln s ts (perTableAdd l t)]

theorem perTableAdd_ctx (l : List (String × String)) (t : String)
    (h : t ≠ "ApplicationDbContext") :
    List.lookup ctxPath (perTableAdd l t) = List.lookup ctxPath l ∧
      List.countP (fun p => p.1 == ctxPath) (perTableAdd l t) =
        List.countP (fun p => p.1 == ctxPath) l := by
  unfold perTableAdd
  constructor
  · rw [lookup_objInsert_ne _ _ _ _ (Ne.symm (svcPath_ne_ctxPath t)),
      lookup_objInsert_ne _ _ _ _ (Ne.symm (ctrlPath_ne_ctxPath t)),
      lookup_objInsert_ne _ _ _ _ (Ne.symm (repoPath_ne_ctxPath t)),
      lookup_objInsert_ne _ _ _ _ (Ne.symm (modelPath_ne_ctxPath t h))]
  · rw [countP_objInsert_ne _ _ _ _ (svcPath_ne_ctxPath t),
      countP_objInsert_ne _ _ _ _ (ctrlPath_ne_ctxPath t),
      countP_objInsert_ne _ _ _ _ (repoPath_ne_ctxPath t),
      countP_objInsert_ne _ _ _ _ (modelPath_ne_ctxPath t h)]

theorem foldl_perTableAdd_ctx :
    ∀ (ts : List String), (∀ t ∈ ts, t ≠ "ApplicationDbContext") →
      ∀ (l : List (String × String)),
        List.lookup ctxPath (ts.foldl perTableAdd l) = List.lookup ctxPath l ∧
          List.countP (fun p => p.1 == ctxPath) (ts.foldl perTableAdd l) =
            List.countP (fun p => p.1 == ctxPath) l
  | [], _, _ => ⟨rfl, rfl⟩
  | t :: ts, h, l => by
    have ht : t ≠ "ApplicationDbContext" := h t (List.mem_cons_self t ts)
    have hts : ∀ x ∈ ts, x ≠ "ApplicationDbContext" :=
      fun x hx => h x (List.mem_cons_of_mem t hx)
    have ih := foldl_perTableAdd_ctx ts hts (perTableAdd l t)
    have hp := perTableAdd_ctx l t ht
    rw [List.foldl_cons]
    exact ⟨ih.1.trans hp.1, ih.2.trans hp.2⟩

theorem applySelAction_names_eq (s₁ s₂ : List TableDef)
    (h : s₁.map TableDef.name = s₂.map TableDef.name) (sel : List String) (a : SelAction) :
    applySelAction s₁ sel a = applySelAction s₂ sel a := by
  cases a <;> simp [applySelAction, h]

theorem foldl_applySelAction_eq (s₁ s₂ : List TableDef)
    (h : s₁.map TableDef.name = s₂.map TableDef.name) :
    ∀ (acts : List SelAction) (sel : List String),
      acts.foldl (applySelAction s₁) sel = acts.foldl (applySelAction s₂) sel
  | [], _ => rfl
  | a :: acts, sel => by
    rw [List.foldl_cons, List.foldl_cons, applySelAction_names_eq s₁ s₂ h sel a,
      foldl_applySelAction_eq s₁ s₂ h acts (applySelAction s₂ sel a)]

theorem finalSelection_names_eq (s₁ s₂ : List TableDef)
    (h : s₁.map TableDef.name = s₂.map TableDef.name) (acts : List SelAction) :
    finalSelection s₁ acts = finalSelection s₂ acts := by
  unfold finalSelection
  rw [h, foldl_applySelAction_eq s₁ s₂ h]

theorem applyConfigKey_port (c : ConnectionConfig) (k v : String) :
    (applyConfigKey c k v).port = c.port := by
  simp only [applyConfigKey]
  repeat' split
  all_goals rfl

theorem applySegment_port (c : ConnectionConfig) (pair : String) :
    (applySegment c pair).port = c.port := by
  simp only [applySegment]
  repeat' split
  all_goals first | rfl | apply applyConfigKey_port

theorem foldl_applySegment_port :
    ∀ (l : List String) (c : ConnectionConfig),
      (l.foldl applySegment c).port = c.port
  | [], _ => rfl
  | p :: l, c => by
    rw [List.foldl_cons, foldl_applySegment_port l (applySegment c p), applySegment_port]

theorem mem_pkColumns_iff (db : InfoSchemaDb) (a b : String) :
    (a, b) ∈ pkColumns db ↔
      ∃ tc ∈ db.tableConstraints, tc.constraintType = "PRIMARY KEY" ∧
        ∃ ku ∈ db.keyColumnUsage, ku.constraintName = tc.constraintName ∧
          ku.tableName = a ∧ ku.columnName = b := by
  unfold pkColumns
  rw [List.mem_flatMap]
  constructor
  · rintro ⟨tc, htc, hmem⟩
    by_cases hty : tc.constraintType == "PRIMARY KEY"
    · rw [if_pos hty] at hmem
      rw [List.mem_map] at hmem
      obtain ⟨ku, hku, heq⟩ := hmem
      rw [List.mem_filter] at hku
      refine ⟨tc, htc, by simpa using hty, ku, hku.1, by simpa using hku.2, ?_, ?_⟩
      · exact congrArg Prod.fst heq
      · exact congrArg Prod.snd heq
    · rw [if_neg hty] at hmem
      exact absurd hmem (List.not_mem_nil _)
  · rintro ⟨tc, htc, hty, ku, hku, hcn, hta, hcb⟩
    refine ⟨tc, htc, ?_⟩
    rw [if_pos (by simpa using hty), List.mem_map]
    refine ⟨ku, ?_, by rw [hta, hcb]⟩
    rw [List.mem_filter]
    exact ⟨hku, by simpa using hcn⟩

theorem pk_flag_iff (db : InfoSchemaDb) (c : ColumnsRow) :
    ((if (pkColumns db).any (fun pk => pk.1 == c.tableName && pk.2 == c.columnName)
        then (1 : Nat) else 0) == 1) = true ↔
      (c.tableName, c.columnName) ∈ pkColumns db := by
  split
  · next hany =>
    rw [List.any_eq_true] at hany
    obtain ⟨pk, hpk, hb⟩ := hany
    rw [Bool.and_eq_true, beq_iff_eq, beq_iff_eq] at hb
    have hpe : pk = (c.tableName, c.columnName) := Prod.ext hb.1 hb.2
    rw [hpe] at hpk
    simp [hpk]
  · next hany =>
    constructor
    · intro h
      simp at h
    · intro hmem
      exact absurd (List.any_eq_true.mpr
        ⟨(c.tableName, c.columnName), hmem, by simp⟩) hany

/-! ## Claim theorems -/

/-- C2, counterexample: the entity model generated for `Users` does not
declare "exactly a 32-bit-integer field and a string field".  It declares
four auto-properties — two of them `DateTime` — and never mentions the
`Email` column at all, because `generateEntityModel` receives only the
table name and emits a fixed template. -/
theorem c2_users_model_counterexample :
    countSub "\x7b get; set; \x7d".data (generateEntityModel "Users").data = 4 ∧
    countSub "public DateTime".data (generateEntityModel "Users").data = 2 ∧
    containsSub "Email".data (generateEntityModel "Users").data = false := by
  refine ⟨by decide, by decide, by decide⟩

/-- C2, amended: there is no column type mapping; the entity model for
`Users` is the fixed template declaring exactly four properties — a 32-bit
integer `Id` marked `[Key]`, a string `Name`, a `DateTime CreatedAt` and a
nullable `DateTime? UpdatedAt` — independent of the table's column list
(the generator's only input is the table name). -/
theorem c2_users_model_fixed_template :
    countSub "\x7b get; set; \x7d".data (generateEntityModel "Users").data = 4 ∧
    containsSub "[Key]\n        public int Id \x7b get; set; \x7d".data
      (generateEntityModel "Users").data = true ∧
    containsSub "public string Name \x7b get; set; \x7d = string.Empty;".data
      (generateEntityModel "Users").data = true ∧
    containsSub "public DateTime CreatedAt \x7b get; set; \x7d = DateTime.UtcNow;".data
      (generateEntityModel "Users").data = true ∧
    containsSub "public DateTime? UpdatedAt \x7b get; set; \x7d".data
      (generateEntityModel "Users").data = true := by
  refine ⟨by decide, by decide, by decide, by decide, by decide⟩

/-- C3, code evaluated at the failing input: for a requested table name
(`"Ghost"`) that no snapshot needs to contain, the generator still emits the
complete file set — the four per-table artifacts for `Ghost` among them —
with the full entity-model template as content; its output type has no error
case, so no `LookupError` is ever reported, whatever the random draw. -/
theorem c3_missing_table_generates_files (rand : String) :
    (handleDownloadProjectFiles ["Ghost"] rand).map Prod.fst =
      ["GenNettaApp.sln", "GenNettaApp/GenNettaApp.csproj", "GenNettaApp/Program.cs",
       "GenNettaApp/Models/ApplicationDbContext.cs", "GenNettaApp/appsettings.json",
       "README.md", "GenNettaApp/Models/Ghost.cs",
       "GenNettaApp/Repositories/GhostRepository.cs",
       "GenNettaApp/Controllers/GhostsController.cs",
       "GenNettaApp/Services/GhostService.cs"] ∧
    List.lookup (modelPath "Ghost") (handleDownloadProjectFiles ["Ghost"] rand) =
      some (generateEntityModel "Ghost") := by
  exact ⟨rfl, rfl⟩

/-- C4, counterexample: the parser does not split a pair at the first `=`.
`pair.split('=')` cuts at every `=` and only the first two parts are kept,
so for `Password=abc=def` the stored password is `abc`, not `abc=def`. -/
theorem c4_second_equals_truncation :
    (parseConnectionString "Server=db1;Password=abc=def").password = some "abc" ∧
    (parseConnectionString "Server=db1;Password=abc=def").password ≠ some "abc=def" := by
  refine ⟨by decide, by decide⟩

/-- C4, amended: parsing splits the descriptor into semicolon-delimited
pairs and each pair at `=` signs, keeping the text before the first `=` as
the key and the text between the first and the second `=` as the value
(anything after a second `=` is dropped); keys are matched
case-insensitively against the alias set, later occurrences of a key
overwrite earlier ones, and the spec's example parses exactly as stated. -/
theorem c4_parse_examples :
    parseConnectionString "Server=db1;Database=Shop;User Id=sa;Password=secret;" =
      { server := "db1", database := "Shop", username := some "sa",
        password := some "secret", trustedConnection := none, port := 1433 } ∧
    parseConnectionString "SERVER=db1;DATABASE=Shop;USER ID=sa;PASSWORD=secret;" =
      parseConnectionString "Server=db1;Database=Shop;User Id=sa;Password=secret;" ∧
    (parseConnectionString "Password=first;Password=last").password = some "last" ∧
    parseConnectionString "Data Source=db2;Initial Catalog=Inv;Uid=u;Pwd=p;Integrated Security=yes" =
      { server := "db2", database := "Inv", username := some "u",
        password := some "p", trustedConnection := some true, port := 1433 } ∧
    (parseConnectionString "Password=abc=def;").password = some "abc" := by
  refine ⟨by decide, by decide, by decide, by decide, by decide⟩

/-- C5, code evaluated at the failing input: a password supplied through the
`Pwd` alias is parsed as the password but is not touched by the masking
regex `/Password=[^;]+/i`, so the success response echoes the connection
string with the secret intact (while the `Password` spelling of the spec's
example is masked as stated). -/
theorem c5_pwd_alias_password_leak :
    maskPassword "Server=db1;Database=Shop;Uid=sa;Pwd=secret;" =
      "Server=db1;Database=Shop;Uid=sa;Pwd=secret;" ∧
    (parseConnectionString "Server=db1;Database=Shop;Uid=sa;Pwd=secret;").password =
      some "secret" ∧
    (serveHandler (Except.ok (some "Server=db1;Database=Shop;Uid=sa;Pwd=secret;"))
        (Except.ok [])).connectionString =
      some "Server=db1;Database=Shop;Uid=sa;Pwd=secret;" ∧
    containsSub "secret".data "Server=db1;Database=Shop;Uid=sa;Pwd=secret;".data = true ∧
    maskPassword "Server=db1;Database=Shop;User Id=sa;Password=secret;" =
      "Server=db1;Database=Shop;User Id=sa;Password=***;" := by
  refine ⟨by decide, by decide, by decide, by decide, by decide⟩

/-- C8: a missing or empty connection string is rejected with the 400
validation failure without consulting the database (the response is
independent of the query oracle), and every response of the handler is
structured: it either succeeds or carries an error message — the handler is
a total function, so no outcome of the body parse or of the database layer
escapes as a crash. -/
theorem c8_validation_and_error_boundary :
    (∀ d₁ d₂ : Except String (List NodeTable),
        nodeAnalyzeHandler (Except.ok none) d₁ = nodeAnalyzeHandler (Except.ok none) d₂) ∧
    (∀ d₁ d₂ : Except String (List NodeTable),
        nodeAnalyzeHandler (Except.ok (some "")) d₁ =
          nodeAnalyzeHandler (Except.ok (some "")) d₂) ∧
    (∀ d : Except String (List NodeTable),
        nodeAnalyzeHandler (Except.ok none) d =
          { status := 400, success := false, tables := none,
            error := some "Connection string is required" }) ∧
    (∀ d : Except String (List NodeTable),
        nodeAnalyzeHandler (Except.ok (some "")) d =
          { status := 400, success := false, tables := none,
            error := some "Connection string is required" }) ∧
    (∀ (body : Except String (Option String)) (d : Except String (List NodeTable)),
        (nodeAnalyzeHandler body d).success = true ∨
          (nodeAnalyzeHandler body d).error.isSome = true) := by
  refine ⟨fun d₁ d₂ => rfl, fun d₁ d₂ => rfl, fun d => rfl, fun d => rfl, ?_⟩
  intro body d
  cases body with
  | error e => right; rfl
  | ok cs =>
    cases cs with
    | none => right; rfl
    | some s =>
      by_cases h : s = ""
      · right
        simp [nodeAnalyzeHandler, h]
      · cases d with
        | ok tables =>
          left
          simp [nodeAnalyzeHandler, h]
        | error e =>
          right
          simp [nodeAnalyzeHandler, h]

theorem applyConfigKey_unrecognized (c : ConnectionConfig) (k v : String)
    (h : strToLower k ∉ (["server", "data source", "database", "initial catalog",
      "user id", "uid", "password", "pwd", "trusted_connection",
      "integrated security"] : List String)) :
    applyConfigKey c k v = c := by
  simp only [List.mem_cons, not_or] at h
  obtain ⟨h1, h2, h3, h4, h5, h6, h7, h8, h9, h10, -⟩ := h
  simp only [applyConfigKey]
  rw [if_neg (not_or.mpr ⟨h1, h2⟩), if_neg (not_or.mpr ⟨h3, h4⟩),
    if_neg (not_or.mpr ⟨h5, h6⟩), if_neg (not_or.mpr ⟨h7, h8⟩),
    if_neg (not_or.mpr ⟨h9, h10⟩)]

/-- C10: connection-string parsing is a total function; the returned port is
always the default 1433, the empty descriptor parses to the all-defaults
config (empty server and database), and a segment whose trimmed key or value
is empty or missing, or whose key is not one of the ten recognized aliases,
leaves the config unchanged. -/
theorem c10_parse_total_and_defaults :
    (∀ s : String, (parseConnectionString s).port = 1433) ∧
    parseConnectionString "" = initialConfig ∧
    (∀ (cfg : ConnectionConfig) (pair k v : String),
        ((strSplit '=' pair).map strTrim)[0]? = some k →
        ((strSplit '=' pair).map strTrim)[1]? = some v →
        ¬ k = "" → ¬ v = "" →
        strToLower k ∉ (["server", "data source", "database", "initial catalog",
          "user id", "uid", "password", "pwd", "trusted_connection",
          "integrated security"] : List String) →
        applySegment cfg pair = cfg) ∧
    (∀ (cfg : ConnectionConfig) (pair : String),
        (((strSplit '=' pair).map strTrim)[0]? = some "" ∨
          ((strSplit '=' pair).map strTrim)[1]? = some "" ∨
          ((strSplit '=' pair).map strTrim)[1]? = none) →
        applySegment cfg pair = cfg) := by
  refine ⟨?_, by decide, ?_, ?_⟩
  · intro s
    unfold parseConnectionString
    exact foldl_applySegment_port _ initialConfig
  · intro cfg pair k v hk hv hke hve hun
    simp only [applySegment]
    rw [hk, hv]
    show (if k = "" ∨ v = "" then cfg else applyConfigKey cfg k v) = cfg
    rw [if_neg (not_or.mpr ⟨hke, hve⟩)]
    exact applyConfigKey_unrecognized cfg k v hun
  · intro cfg pair h
    simp only [applySegment]
    rcases h with h | h | h
    · rw [h]
      cases hv : ((strSplit '=' pair).map strTrim)[1]? with
      | none => rfl
      | some v =>
        show (if ("" : String) = "" ∨ v = "" then cfg else applyConfigKey cfg "" v) = cfg
        rw [if_pos (Or.inl rfl)]
    · cases hk : ((strSplit '=' pair).map strTrim)[0]? with
      | none => rw [h]
      | some k =>
        rw [h]
        show (if k = "" ∨ ("" : String) = "" then cfg else applyConfigKey cfg k "") = cfg
        rw [if_pos (Or.inr rfl)]
    · rw [h]
      cases hk : ((strSplit '=' pair).map strTrim)[0]? <;> rfl

/-- C10, witness: a segment with the unrecognized key `Foo` leaves the
config unchanged. -/
theorem c10_parse_total_and_defaults_witness :
    (((strSplit '=' "Foo=Bar").map strTrim)[0]? = some "Foo") ∧
    (((strSplit '=' "Foo=Bar").map strTrim)[1]? = some "Bar") ∧
    strToLower "Foo" ∉ (["server", "data source", "database", "initial catalog",
      "user id", "uid", "password", "pwd", "trusted_connection",
      "integrated security"] : List String) ∧
    applySegment initialConfig "Foo=Bar" = initialConfig :=
  ⟨by decide, by decide, by decide,
    c10_parse_total_and_defaults.2.2.1 initialConfig "Foo=Bar" "Foo" "Bar"
      (by decide) (by decide) (by decide) (by decide) (by decide)⟩

/-- C1, counterexample: two runs of the generator on the same selected
subset differ at the output path `GenNettaApp.sln`, because the solution
file embeds the fresh `Math.random()` project id of the run. -/
theorem c1_sln_nondeterminism :
    List.lookup "GenNettaApp.sln" (handleDownloadProjectFiles ["Users"] "AAAAAA") ≠
      List.lookup "GenNettaApp.sln" (handleDownloadProjectFiles ["Users"] "BBBBBB") := by
  decide

/-- C1, amended: the generator is deterministic at every output path other
than `GenNettaApp.sln` — for the same selected subset, the content looked up
at any such path is independent of the random draw; only the solution file
varies between runs. -/
theorem c1_determinism_outside_sln (tables : List String) (r₁ r₂ p : String)
    (hp : p ≠ "GenNettaApp.sln") :
    List.lookup p (handleDownloadProjectFiles tables r₁) =
      List.lookup p (handleDownloadProjectFiles tables r₂) := by
  unfold handleDownloadProjectFiles
  rw [show baseProjectFiles tables r₁ =
        ("GenNettaApp.sln", slnFile r₁) :: baseTailFiles tables from rfl,
    show baseProjectFiles tables r₂ =
        ("GenNettaApp.sln", slnFile r₂) :: baseTailFiles tables from rfl,
    foldl_perTableAdd_cons_sln, foldl_perTableAdd_cons_sln,
    List.lookup_cons, List.lookup_cons]
  have hb : (p == "GenNettaApp.sln") = false := by simp [hp]
  rw [hb]

/-- C1, witness: at the path `README.md` the two runs of the counterexample
agree. -/
theorem c1_determinism_outside_sln_witness :
    ("README.md" : String) ≠ "GenNettaApp.sln" ∧
    List.lookup "README.md" (handleDownloadProjectFiles ["Users"] "AAAAAA") =
      List.lookup "README.md" (handleDownloadProjectFiles ["Users"] "BBBBBB") :=
  ⟨by decide,
    c1_determinism_outside_sln ["Users"] "AAAAAA" "BBBBBB" "README.md" (by decide)⟩

/-- C6, counterexample: selecting the single table named
`ApplicationDbContext` makes the per-table model assignment overwrite the
database-context entry (same object key), so the only file at the context
path is the entity-model template, which contains no data-set declaration at
all — not the one declaration the claim requires for `n = 1`. -/
theorem c6_dbcontext_overwrite_counterexample :
    List.countP (fun p => p.1 == ctxPath)
      (handleDownloadProjectFiles ["ApplicationDbContext"] "R") = 1 ∧
    List.lookup ctxPath (handleDownloadProjectFiles ["ApplicationDbContext"] "R") =
      some (generateEntityModel "ApplicationDbContext") ∧
    countSub "DbSet<".data (generateEntityModel "ApplicationDbContext").data = 0 := by
  refine ⟨by decide, by decide, by decide⟩

/-- C6, amended: for every non-empty selection that does not contain the
name `ApplicationDbContext`, the project mapping has exactly one entry at
the database-context path, its content is the context template, and that
template embeds one data-set declaration per selected table, joined in
selection order. -/
theorem c6_dbcontext_unique_and_ordered (tables : List String) (rand : String)
    (hne : tables ≠ []) (hta : "ApplicationDbContext" ∉ tables) :
    List.countP (fun p => p.1 == ctxPath) (handleDownloadProjectFiles tables rand) = 1 ∧
    List.lookup ctxPath (handleDownloadProjectFiles tables rand) =
      some (dbContextFile tables) ∧
    ∃ pre post : String, dbContextFile tables =
      pre ++ String.intercalate "\n" (tables.map dbSetDecl) ++ post := by
  have hmem : ∀ t ∈ tables, t ≠ "ApplicationDbContext" := fun t ht he => hta (he ▸ ht)
  have h := foldl_perTableAdd_ctx tables hmem (baseProjectFiles tables rand)
  unfold handleDownloadProjectFiles
  refine ⟨h.2.trans rfl, h.1.trans rfl, ?_⟩
  refine ⟨"using Microsoft.EntityFrameworkCore;\n\nnamespace GenNettaApp.Models\n\x7b\n    public class ApplicationDbContext : DbContext\n    \x7b\n        public ApplicationDbContext(DbContextOptions<ApplicationDbContext> options) : base(options) \x7b \x7d\n        \n",
    "\n        \n        protected override void OnModelCreating(ModelBuilder modelBuilder)\n        \x7b\n            base.OnModelCreating(modelBuilder);\n            \n" ++
      dbConfigEntities tables ++ "\n        \x7d\n    \x7d\n\x7d", ?_⟩
  simp [dbContextFile, dbSets, String.append_assoc]

/-- C6, witness: the selection `["Users", "Orders"]` satisfies the
hypotheses, and the claim holds for it. -/
theorem c6_dbcontext_unique_and_ordered_witness :
    (["Users", "Orders"] : List String) ≠ [] ∧
    "ApplicationDbContext" ∉ (["Users", "Orders"] : List String) ∧
    (List.countP (fun p => p.1 == ctxPath)
        (handleDownloadProjectFiles ["Users", "Orders"] "R") = 1 ∧
      List.lookup ctxPath (handleDownloadProjectFiles ["Users", "Orders"] "R") =
        some (dbContextFile ["Users", "Orders"]) ∧
      ∃ pre post : String, dbContextFile ["Users", "Orders"] =
        pre ++ String.intercalate "\n" (["Users", "Orders"].map dbSetDecl) ++ post) :=
  ⟨by decide, by decide,
    c6_dbcontext_unique_and_ordered ["Users", "Orders"] "R" (by decide) (by decide)⟩

/-- C9: the generated project files depend on the schema snapshot only
through the selected table names — two snapshots whose tables carry the same
names, with arbitrarily different column lists, drive the selection UI and
the generator to byte-identical output (the generator's input is only the
list of selected name strings). -/
theorem c9_column_noninterference (s₁ s₂ : List TableDef) (acts : List SelAction)
    (rand : String) (h : s₁.map TableDef.name = s₂.map TableDef.name) :
    pipelineGenerate s₁ acts rand = pipelineGenerate s₂ acts rand := by
  unfold pipelineGenerate
  rw [finalSelection_names_eq s₁ s₂ h acts]

/-- C9, witness: the two example snapshots share the table name `Users` with
different column lists and generate identical projects. -/
theorem c9_column_noninterference_witness :
    snapUsersA.map TableDef.name = snapUsersB.map TableDef.name ∧
    pipelineGenerate snapUsersA [] "" = pipelineGenerate snapUsersB [] "" :=
  ⟨by decide, c9_column_noninterference snapUsersA snapUsersB [] "" (by decide)⟩

/-- C7: the live schema provider issues the base-table enumeration query
followed by exactly one column query per returned table, in order; each
returned table's column list arises from the `INFORMATION_SCHEMA.COLUMNS`
rows of that table sorted by ordinal position; and each returned column is
backed by a metadata row of that table such that the nullable flag holds iff
`IS_NULLABLE` is `YES` and the primary-key flag holds iff some `PRIMARY KEY`
constraint's key-column usage names the table and column. -/
theorem c7_schema_provider_queries (db : InfoSchemaDb) :
    analyzeSchemaQueries db =
      SqlQuery.tablesQ :: (analyzeSchemaTables db).map (fun t => SqlQuery.columnsQ t.name) ∧
    (∀ t ∈ analyzeSchemaTables db,
      ∃ rows : List ColumnsRow,
        rows.Perm (db.columns.filter (fun c => c.tableName == t.name)) ∧
        List.Sorted colOrd rows ∧
        t.columns = rows.map (fun c => rowToNodeColumn
          { columnName := c.columnName, dataType := c.dataType, isNullable := c.isNullable,
            isPrimaryKey := if (pkColumns db).any
                (fun pk => pk.1 == c.tableName && pk.2 == c.columnName) then 1 else 0 })) ∧
    (∀ t ∈ analyzeSchemaTables db, ∀ col ∈ t.columns,
      ∃ r ∈ db.columns, r.tableName = t.name ∧ r.columnName = col.name ∧
        col.type = r.dataType ∧
        (col.nullable = true ↔ r.isNullable = "YES") ∧
        (col.primaryKey = true ↔
          ∃ tc ∈ db.tableConstraints, tc.constraintType = "PRIMARY KEY" ∧
            ∃ ku ∈ db.keyColumnUsage, ku.constraintName = tc.constraintName ∧
              ku.tableName = t.name ∧ ku.columnName = col.name)) := by
  refine ⟨?_, ?_, ?_⟩
  · unfold analyzeSchemaQueries analyzeSchemaTables
    rw [List.map_map]
    rfl
  · intro t ht
    unfold analyzeSchemaTables at ht
    rw [List.mem_map] at ht
    obtain ⟨tn, htn, rfl⟩ := ht
    refine ⟨sortedColumnsRows db tn, ?_, ?_, ?_⟩
    · exact List.perm_insertionSort colOrd _
    · exact List.sorted_insertionSort colOrd _
    · show List.map rowToNodeColumn (columnsQueryRows db tn) = _
      unfold columnsQueryRows
      rw [List.map_map]
      rfl
  · intro t ht col hcol
    unfold analyzeSchemaTables at ht
    rw [List.mem_map] at ht
    obtain ⟨tn, htn, rfl⟩ := ht
    replace hcol : col ∈ List.map rowToNodeColumn (columnsQueryRows db tn) := hcol
    rw [List.mem_map] at hcol
    obtain ⟨qr, hqr, rfl⟩ := hcol
    unfold columnsQueryRows at hqr
    rw [List.mem_map] at hqr
    obtain ⟨c, hc, rfl⟩ := hqr
    unfold sortedColumnsRows at hc
    have hcf : c ∈ db.columns.filter (fun c => c.tableName == tn) :=
      ((List.perm_insertionSort colOrd _).mem_iff).mp hc
    rw [List.mem_filter] at hcf
    obtain ⟨hcd, hceq⟩ := hcf
    have hct : c.tableName = tn := by simpa using hceq
    subst hct
    refine ⟨c, hcd, rfl, rfl, rfl, beq_iff_eq, ?_⟩
    have h1 := pk_flag_iff db c
    rw [mem_pkColumns_iff] at h1
    exact h1

/-- C7, witness: for the example metadata state, the table `Users` is
returned with its `Id` column, whose primary-key flag is justified by the
`PK_Users` constraint. -/
theorem c7_schema_provider_queries_witness :
    exUsersTable ∈ analyzeSchemaTables exInfoDb ∧
    (⟨"Id", "int", false, true⟩ : NodeColumn) ∈ exUsersTable.columns ∧
    (∃ r ∈ exInfoDb.columns, r.tableName = exUsersTable.name ∧
      r.columnName = (⟨"Id", "int", false, true⟩ : NodeColumn).name ∧
      (⟨"Id", "int", false, true⟩ : NodeColumn).type = r.dataType ∧
      ((⟨"Id", "int", false, true⟩ : NodeColumn).nullable = true ↔ r.isNullable = "YES") ∧
      ((⟨"Id", "int", false, true⟩ : NodeColumn).primaryKey = true ↔
        ∃ tc ∈ exInfoDb.tableConstraints, tc.constraintType = "PRIMARY KEY" ∧
          ∃ ku ∈ exInfoDb.keyColumnUsage, ku.constraintName = tc.constraintName ∧
            ku.tableName = exUsersTable.name ∧
            ku.columnName = (⟨"Id", "int", false, true⟩ : NodeColumn).name)) :=
  ⟨by decide, by decide,
    (c7_schema_provider_queries exInfoDb).2.2 exUsersTable (by decide)
      ⟨"Id", "int", false, true⟩ (by decide)⟩
